import Mathlib

/-!
JIT error classification and trapping (`src/jit/error.h`).

A shallow embedding of the header: the raiser macros are Lean functions that
build the statement or expression the preprocessor would produce, a small
interpreter runs such a statement against the functions the header only
declares, and the two `SafeCvt` templates and the trap-scope macros are
functions over explicit state.
-/

namespace JitError

/-! ## Build configuration -/

/-- Compile-time flags the header reads with `#ifdef` / `#if defined`. -/
structure Build where
  DEBUG : Bool
  FEATURE_TRACELOGGING : Bool
  ALT_JIT : Bool
  TARGET_X86 : Bool
  LEGACY_BACKEND : Bool
  deriving DecidableEq, Repr

/-- Lines 87-91: `MEASURE_NOWAY` is 1 under `DEBUG` and 0 otherwise. -/
def MEASURE_NOWAY (b : Build) : Bool := b.DEBUG

/-- Line 153: `#if !defined(_TARGET_X86_) || !defined(LEGACY_BACKEND)`, the
guard under which `NYI` is a raiser and not an `assert`. -/
def nyiAvailable (b : Build) : Bool := !b.TARGET_X86 || !b.LEGACY_BACKEND

/-! ## Functions declared by the header (lines 63-81, 94, 158) -/

/-- The functions the header declares and its raisers call. -/
inductive Callee
  | debugError
  | badCode
  | badCode3
  | noWay
  | NOMEM
  | fatal
  | noWayAssertBody
  | noWayAssertBodyConditional
  | RecordNowayAssertGlobal
  | notYetImplemented
  deriving DecidableEq, Repr

/-- Whether the declaration carries `DECLSPEC_NORETURN` (lines 63-81): both
overloads of `noWayAssertBody` do, neither overload of
`noWayAssertBodyConditional` does, nor do `debugError`,
`RecordNowayAssertGlobal` and `notYetImplemented`. -/
def Callee.noreturn : Callee → Bool
  | .debugError => false
  | .badCode => true
  | .badCode3 => true
  | .noWay => true
  | .NOMEM => true
  | .fatal => true
  | .noWayAssertBody => true
  | .noWayAssertBodyConditional => false
  | .RecordNowayAssertGlobal => false
  | .notYetImplemented => false

/-! ## Expressions and statements produced by the raisers -/

/-- An argument as written in a call inside the header. -/
inductive Arg
  | str (s : String)
  | FILE
  | LINE
  | int (n : Int)
  deriving DecidableEq, Repr

/-- An argument value as the callee receives it. -/
inductive Val
  | str (s : String)
  | num (n : Int)
  deriving DecidableEq, Repr

/-- The source position at which a raiser is used: what `__FILE__` and
`__LINE__` expand to there. -/
structure Site where
  file : String
  line : Nat
  deriving DecidableEq, Repr

def Arg.eval (site : Site) : Arg → Val
  | .str s => .str s
  | .FILE => .str site.file
  | .LINE => .num site.line
  | .int n => .num n

/-- Expressions occurring in the expansions. `cond text` is the predicate the
caller passed to a guard; `str s` is a string literal used as a value. -/
inductive Expr
  | cond (text : String)
  | str (s : String)
  | not (e : Expr)
  | call (fn : Callee) (args : List Arg)
  | comma (a b : Expr)
  deriving DecidableEq, Repr

/-- Statements occurring in the expansions. `doWhile0 s` is
`do { s } while (0)`; `assert e` is a use of the `assert` of the including
translation unit. -/
inductive Stmt
  | skip
  | expr (e : Expr)
  | ifThen (c : Expr) (t : Stmt)
  | seq (a b : Stmt)
  | doWhile0 (body : Stmt)
  | assert (e : Expr)
  deriving DecidableEq, Repr

/-! ## What lies outside the header -/

/-- Everything a run depends on that the header does not define. -/
structure Env where
  /-- Position of the raiser being run. -/
  site : Site
  /-- Value the guarded predicate has when it is evaluated. -/
  condValue : Bool
  /-- Answer of the compiler when `noWayAssertBodyConditional` asks whether to
  raise (comment at lines 73-75). -/
  nowayRaises : Bool
  /-- Whether `notYetImplemented` raises; it "can return based on Config
  flag/Debugger" (line 157). -/
  nyiRaises : Bool
  /-- Whether `debugError` comes back to its caller. -/
  debugErrorReturns : Bool
  /-- Whether `assert` is compiled in. -/
  assertEnabled : Bool
  deriving DecidableEq, Repr

/-- Events a run can be observed by. -/
inductive Event
  | evalCond (text : String)
  | call (fn : Callee) (args : List Val)
  deriving DecidableEq, Repr

/-- The hit-count store: a count per (file, line, condition text). -/
abbrev Hits := List (List Val × Nat)

/-- Modelled from the spec: the body of `RecordNowayAssertGlobal` is not in
the header. The spec (4.3) has it increment a counter keyed by source site
and condition text, observational only. -/
def RecordNowayAssertGlobal (key : List Val) : Hits → Hits
  | [] => [(key, 1)]
  | (k, n) :: rest =>
    if k = key then (k, n + 1) :: rest else (k, n) :: RecordNowayAssertGlobal key rest

/-- How control leaves an expression. -/
inductive Flow
  | value (b : Bool)
  | raised (fn : Callee)
  deriving DecidableEq, Repr

/-- How control leaves a statement. -/
inductive Outcome
  | normal
  | raised (fn : Callee)
  | assertFailed
  deriving DecidableEq, Repr

/-- Whether a call to `fn` comes back. A `DECLSPEC_NORETURN` function never
does; for the others the environment decides, except the hit recorder, which
only counts. -/
def callReturns (env : Env) (fn : Callee) : Bool :=
  if fn.noreturn then false
  else
    match fn with
    | .noWayAssertBodyConditional => !env.nowayRaises
    | .notYetImplemented => !env.nyiRaises
    | .debugError => env.debugErrorReturns
    | _ => true

/-- A call: the event, the counter update when the callee is the hit recorder,
and whether control comes back. -/
def callFn (env : Env) (fn : Callee) (args : List Val) (h : Hits) :
    List Event × Hits × Flow :=
  ([Event.call fn args],
   (if fn = Callee.RecordNowayAssertGlobal then RecordNowayAssertGlobal args h else h),
   (if callReturns env fn then Flow.value false else Flow.raised fn))

def evalExpr (env : Env) : Expr → Hits → List Event × Hits × Flow
  | .cond text, h => ([Event.evalCond text], h, Flow.value env.condValue)
  | .str _, h => ([], h, Flow.value true)
  | .not e, h =>
    match evalExpr env e h with
    | (ev, h1, Flow.value b) => (ev, h1, Flow.value (!b))
    | (ev, h1, Flow.raised fn) => (ev, h1, Flow.raised fn)
  | .call fn args, h => callFn env fn (args.map (Arg.eval env.site)) h
  | .comma a b, h =>
    match evalExpr env a h with
    | (ev, h1, Flow.value _) =>
      match evalExpr env b h1 with
      | (ev2, h2, f) => (ev ++ ev2, h2, f)
    | (ev, h1, Flow.raised fn) => (ev, h1, Flow.raised fn)

/-- The observable result of running a statement. -/
structure Run where
  events : List Event
  hits : Hits
  outcome : Outcome
  deriving DecidableEq, Repr

def exec (env : Env) : Stmt → Hits → Run
  | .skip, h => ⟨[], h, Outcome.normal⟩
  | .expr e, h =>
    match evalExpr env e h with
    | (ev, h1, Flow.value _) => ⟨ev, h1, Outcome.normal⟩
    | (ev, h1, Flow.raised fn) => ⟨ev, h1, Outcome.raised fn⟩
  | .ifThen c t, h =>
    match evalExpr env c h with
    | (ev, h1, Flow.value true) =>
      match exec env t h1 with
      | ⟨ev2, h2, o⟩ => ⟨ev ++ ev2, h2, o⟩
    | (ev, h1, Flow.value false) => ⟨ev, h1, Outcome.normal⟩
    | (ev, h1, Flow.raised fn) => ⟨ev, h1, Outcome.raised fn⟩
  | .seq a b, h =>
    match exec env a h with
    | ⟨ev, h1, Outcome.normal⟩ =>
      match exec env b h1 with
      | ⟨ev2, h2, o⟩ => ⟨ev ++ ev2, h2, o⟩
    | r => r
  | .doWhile0 body, h => exec env body h
  | .assert e, h =>
    if env.assertEnabled then
      match evalExpr env e h with
      | (ev, h1, Flow.value true) => ⟨ev, h1, Outcome.normal⟩
      | (ev, h1, Flow.value false) => ⟨ev, h1, Outcome.assertFailed⟩
      | (ev, h1, Flow.raised fn) => ⟨ev, h1, Outcome.raised fn⟩
    else ⟨[], h, Outcome.normal⟩

/-! ## The raisers (lines 93-168) -/

/-- Lines 93-98. -/
def RECORD_NOWAY_ASSERT (measure : Bool) (condStr : String) : Stmt :=
  if measure then
    Stmt.expr (Expr.call Callee.RecordNowayAssertGlobal [Arg.FILE, Arg.LINE, Arg.str condStr])
  else Stmt.skip

/-- Lines 127-131. -/
def NOWAY_ASSERT_BODY_ARGUMENTS (b : Build) : List Arg :=
  if b.FEATURE_TRACELOGGING then [Arg.FILE, Arg.LINE] else []

/-- Lines 102 and 123. -/
def NO_WAY (b : Build) (msg : String) : Expr :=
  if b.DEBUG then
    Expr.comma (Expr.call Callee.debugError [Arg.str msg, Arg.FILE, Arg.LINE])
      (Expr.call Callee.noWay [])
  else Expr.call Callee.noWay []

/-- Line 104 (defined under `DEBUG` only). -/
def NO_WAY_NOASSERT (_msg : String) : Expr := Expr.call Callee.noWay []

/-- Lines 105 and 124. -/
def BADCODE (b : Build) (msg : String) : Expr :=
  if b.DEBUG then
    Expr.comma (Expr.call Callee.debugError [Arg.str msg, Arg.FILE, Arg.LINE])
      (Expr.call Callee.badCode [])
  else Expr.call Callee.badCode []

/-- Lines 106 and 125. -/
def BADCODE3 (b : Build) (msg msg2 : String) (arg : Int) : Expr :=
  if b.DEBUG then
    Expr.call Callee.badCode3 [Arg.str msg, Arg.str msg2, Arg.int arg, Arg.FILE, Arg.LINE]
  else Expr.call Callee.badCode []

/-- Lines 108-116 and 133-141, with the `MEASURE_NOWAY` setting explicit. -/
def noway_assert_measured (b : Build) (measure : Bool) (cond : String) : Stmt :=
  Stmt.doWhile0
    (Stmt.seq (RECORD_NOWAY_ASSERT measure cond)
      (Stmt.ifThen (Expr.not (Expr.cond cond))
        (Stmt.expr
          (if b.DEBUG then
            Expr.call Callee.noWayAssertBodyConditional [Arg.str cond, Arg.FILE, Arg.LINE]
          else Expr.call Callee.noWayAssertBodyConditional (NOWAY_ASSERT_BODY_ARGUMENTS b)))))

/-- The guard `noway_assert(cond)` as the header builds it. -/
def noway_assert (b : Build) (cond : String) : Stmt :=
  noway_assert_measured b (MEASURE_NOWAY b) cond

/-- Lines 117 and 142. -/
def unreached (b : Build) : Expr :=
  if b.DEBUG then
    Expr.call Callee.noWayAssertBody [Arg.str "unreached", Arg.FILE, Arg.LINE]
  else Expr.call Callee.noWayAssertBody []

/-- Lines 119 and 144. -/
def NOWAY_MSG (b : Build) (msg : String) : Expr :=
  if b.DEBUG then
    Expr.call Callee.noWayAssertBodyConditional [Arg.str msg, Arg.FILE, Arg.LINE]
  else Expr.call Callee.noWayAssertBodyConditional (NOWAY_ASSERT_BODY_ARGUMENTS b)

/-- Line 151. -/
def IMPL_LIMITATION (b : Build) (msg : String) : Expr := NO_WAY b msg

/-- Lines 155-165. -/
def NYIRAW (b : Build) (msg : String) : Expr :=
  if b.ALT_JIT then
    Expr.call Callee.notYetImplemented [Arg.str msg, Arg.FILE, Arg.LINE]
  else NOWAY_MSG b msg

/-- Lines 167 and 206. -/
def NYI (b : Build) (msg : String) : Stmt :=
  if nyiAvailable b then Stmt.expr (NYIRAW b ("NYI: " ++ msg))
  else Stmt.assert (Expr.not (Expr.str msg))

/-- Line 168. -/
def NYI_IF (b : Build) (cond msg : String) : Stmt :=
  Stmt.ifThen (Expr.cond cond) (Stmt.expr (NYIRAW b ("NYI: " ++ msg)))

/-- Line 67, called directly. -/
def NOMEM : Expr := Expr.call Callee.NOMEM []

/-- Line 68, called directly. -/
def fatal (errCode : Int) : Expr := Expr.call Callee.fatal [Arg.int errCode]

/-! ## Safe narrowing conversions (lines 257-278) -/

/-- Widths of the integer types. -/
inductive Width
  | w8
  | w16
  | w32
  | w64
  deriving DecidableEq, Repr

def Width.bits : Width → Nat
  | .w8 => 8
  | .w16 => 16
  | .w32 => 32
  | .w64 => 64

/-- An integer type: signedness and width. -/
structure IntType where
  signed : Bool
  width : Width
  deriving DecidableEq, Repr

def IntType.minVal (t : IntType) : Int :=
  if t.signed then -(2 ^ (t.width.bits - 1) : Int) else 0

def IntType.maxVal (t : IntType) : Int :=
  if t.signed then (2 ^ (t.width.bits - 1) : Int) - 1 else (2 ^ t.width.bits : Int) - 1

/-- The values of an integer type. -/
def IntType.inRange (t : IntType) (v : Int) : Bool :=
  decide (t.minVal ≤ v) && decide (v ≤ t.maxVal)

/-- Modelled from the spec: `FitsIn` comes from `safemath.h`, which the header
only includes. The spec's conversion invariant has a conversion valid iff the
value is representable in the destination's range. -/
def FitsIn (Dst _Src : IntType) (val : Int) : Bool := Dst.inRange val

/-- The conversion `static_cast<Dst>(val)` between integer types: the value
modulo `2 ^ bits`, read in the destination's signedness. -/
def static_cast (Dst : IntType) (val : Int) : Int :=
  if Dst.signed then
    (val + 2 ^ (Dst.width.bits - 1)) % 2 ^ Dst.width.bits - 2 ^ (Dst.width.bits - 1)
  else val % 2 ^ Dst.width.bits

/-- The result of a call of a `SafeCvt` function: what the check did, and the
returned value when the function returns. -/
structure CvtRun where
  check : Run
  ret : Option Int
  deriving DecidableEq, Repr

/-- Lines 266-271. The predicate of the `assert` is `FitsIn<Dst>(val)`. -/
def SafeCvtAssert (env : Env) (Dst Src : IntType) (val : Int) (h : Hits) : CvtRun :=
  let check :=
    exec { env with condValue := FitsIn Dst Src val }
      (Stmt.assert (Expr.cond "FitsIn<Dst>(val)")) h
  match check.outcome with
  | Outcome.normal => ⟨check, some (static_cast Dst val)⟩
  | _ => ⟨check, none⟩

/-- Lines 273-278. The predicate of the guard is `FitsIn<Dst>(val)`. -/
def SafeCvtNowayAssert (b : Build) (env : Env) (Dst Src : IntType) (val : Int) (h : Hits) :
    CvtRun :=
  let check :=
    exec { env with condValue := FitsIn Dst Src val }
      (noway_assert b "FitsIn<Dst>(val)") h
  match check.outcome with
  | Outcome.normal => ⟨check, some (static_cast Dst val)⟩
  | _ => ⟨check, none⟩

/-! ## Trap scopes (lines 13-57) -/

/-- Line 13. -/
def FATAL_JIT_EXCEPTION : Nat := 0x02345678

/-- The exception record a filter is handed: its exception code and the
failure code carried with the unwind. -/
structure EXCEPTION_POINTERS where
  ExceptionCode : Nat
  ExceptionInformation : Int
  deriving DecidableEq, Repr

/-- Lines 16-25. `jitInfo` is a pointer, `none` standing for `nullptr`. -/
structure ErrorTrapParam where
  errc : Int
  jitInfo : Option Nat
  exceptionPointers : EXCEPTION_POINTERS
  deriving DecidableEq, Repr

/-- Lines 31-34: the trap context with the caller's typed payload. -/
structure JITParam (ParamType : Type) extends ErrorTrapParam where
  param : ParamType

/-- Lines 21-24: the constructor sets `jitInfo` only; the other fields keep
whatever the storage held. -/
def JITParam.construct {ParamType : Type} (storage : JITParam ParamType) : JITParam ParamType :=
  { storage with jitInfo := none }

/-- Lines 30-40, up to and including the first line of the protected block:
the trap context `__JITparam` and the body's local `paramDef`.
`CORJIT_INTERNALERROR` comes from `corjit.h` and is taken as given. -/
def setErrorTrap {ParamType : Type} (CORJIT_INTERNALERROR : Int) (storage : JITParam ParamType)
    (compHnd : Option Nat) (paramRef : ParamType) : JITParam ParamType × ParamType :=
  let p0 := JITParam.construct storage
  let p1 := { p0 with errc := CORJIT_INTERNALERROR }
  let p2 := { p1 with jitInfo := compHnd }
  let p3 := { p2 with param := paramRef }
  let paramDef := p3.param
  (p3, paramDef)

def EXCEPTION_EXECUTE_HANDLER : Int := 1

def EXCEPTION_CONTINUE_SEARCH : Int := 0

/-- Modelled from the spec: the body of `__JITfilter` is not in the header,
which only declares it (line 28). The spec (4.2) has the filter claim the
records identified by the fixed sentinel, capture the failure code and the
record into the trap context, and leave every other record unclaimed. -/
def __JITfilter {ParamType : Type} (pExceptionPointers : EXCEPTION_POINTERS)
    (lpvParam : JITParam ParamType) : Int × JITParam ParamType :=
  if pExceptionPointers.ExceptionCode = FATAL_JIT_EXCEPTION then
    (EXCEPTION_EXECUTE_HANDLER,
      { lpvParam with
        errc := pExceptionPointers.ExceptionInformation
        exceptionPointers := pExceptionPointers })
  else (EXCEPTION_CONTINUE_SEARCH, lpvParam)

/-- How a protected body ends: it completes, or a record is raised in it. -/
inductive BodyEnd
  | completed
  | raised (rec : EXCEPTION_POINTERS)
  deriving DecidableEq, Repr

/-- How a trap scope ends. -/
inductive ScopeEnd (R : Type)
  | completed
  | recovered (r : R)
  | propagated (rec : EXCEPTION_POINTERS)
  deriving DecidableEq, Repr

/-- Modelled from the spec: `PAL_TRY`, `PAL_EXCEPT_FILTER` and `PAL_ENDTRY`
are not in the header. The protected body runs on the entered context; a
record raised in it is handed to `__JITfilter`, and the recovery block opened
by `impJitErrorTrap` runs with `__errc` when the filter answers
`EXCEPTION_EXECUTE_HANDLER`, the record going on to the enclosing scope
otherwise. -/
def protectedRun {ParamType R : Type} (ctx : JITParam ParamType) (paramDef : ParamType)
    (body : JITParam ParamType → ParamType → JITParam ParamType × BodyEnd)
    (recovery : Int → JITParam ParamType → R) : ScopeEnd R :=
  match body ctx paramDef with
  | (_, BodyEnd.completed) => ScopeEnd.completed
  | (ctx1, BodyEnd.raised rec) =>
    match __JITfilter rec ctx1 with
    | (disposition, ctx2) =>
      if disposition = EXCEPTION_EXECUTE_HANDLER then
        ScopeEnd.recovered (recovery ctx2.errc ctx2)
      else ScopeEnd.propagated rec

/-- A whole scope `setErrorTrap ... impJitErrorTrap ... endErrorTrap`. -/
def errorTrap {ParamType R : Type} (CORJIT_INTERNALERROR : Int) (storage : JITParam ParamType)
    (compHnd : Option Nat) (paramRef : ParamType)
    (body : JITParam ParamType → ParamType → JITParam ParamType × BodyEnd)
    (recovery : Int → JITParam ParamType → R) : ScopeEnd R :=
  match setErrorTrap CORJIT_INTERNALERROR storage compHnd paramRef with
  | (ctx, paramDef) => protectedRun ctx paramDef body recovery

/-- A record travelling outwards through nested scopes, innermost first: the
index of the scope whose filter claims it, if any. -/
def unwind {ParamType : Type} (rec : EXCEPTION_POINTERS) :
    List (JITParam ParamType) → Option Nat
  | [] => none
  | ctx :: outer =>
    if (__JITfilter rec ctx).1 = EXCEPTION_EXECUTE_HANDLER then some 0
    else (unwind rec outer).map (· + 1)

/-! ## Observations on runs -/

def Event.isEvalCond : Event → Bool
  | .evalCond _ => true
  | .call _ _ => false

def Event.isCallTo (fn : Callee) : Event → Bool
  | .evalCond _ => false
  | .call g _ => decide (g = fn)

/-- The arguments of the calls to `fn`, in order. -/
def argsPassedTo (fn : Callee) : List Event → List (List Val)
  | [] => []
  | .call g args :: rest => if g = fn then args :: argsPassedTo fn rest else argsPassedTo fn rest
  | .evalCond _ :: rest => argsPassedTo fn rest

/-! ## Sample inputs -/

def releaseBuild : Build := ⟨false, false, false, false, false⟩

def debugBuild : Build := ⟨true, false, false, false, false⟩

def tracingBuild : Build := ⟨false, true, false, false, false⟩

/-- A failing predicate at `x.cpp:7`, with a compiler that declines to raise. -/
def suppressing : Env := ⟨⟨"x.cpp", 7⟩, false, false, false, true, true⟩

/-- A failing predicate at `x.cpp:7`, with a compiler that raises. -/
def raising : Env := ⟨⟨"x.cpp", 7⟩, false, true, true, true, true⟩

/-- A predicate that holds at `x.cpp:7`. -/
def passing : Env := ⟨⟨"x.cpp", 7⟩, true, true, true, true, true⟩

def int32 : IntType := ⟨true, Width.w32⟩

def int64 : IntType := ⟨true, Width.w64⟩

def emptyContext : JITParam Nat := ⟨⟨0, none, ⟨0, 0⟩⟩, 0⟩

/-- A body in which the host raises an access violation. -/
def hostFault : JITParam Nat → Nat → JITParam Nat × BodyEnd :=
  fun ctx _ => (ctx, BodyEnd.raised ⟨0xC0000005, 0⟩)

/-! ## Lemmas -/

theorem static_cast_of_inRange (Dst : IntType) (val : Int) (hr : Dst.inRange val = true) :
    static_cast Dst val = val := by
  obtain ⟨sg, w⟩ := Dst
  cases sg <;> cases w <;>
    simp [IntType.inRange, IntType.minVal, IntType.maxVal, Width.bits] at hr <;>
    simp [static_cast, Width.bits] <;> omega

theorem static_cast_inRange (Dst : IntType) (val : Int) :
    Dst.inRange (static_cast Dst val) = true := by
  obtain ⟨sg, w⟩ := Dst
  cases sg <;> cases w <;>
    simp [IntType.inRange, IntType.minVal, IntType.maxVal, Width.bits, static_cast] <;> omega

/-! ## Trap scopes -/

/-- C1: for a record raised in the protected body of a trap scope, the filter
answers `EXCEPTION_EXECUTE_HANDLER`, and the recovery block runs, exactly when
the record's exception code is `FATAL_JIT_EXCEPTION` (0x02345678); a record
with any other code leaves the trap context as it was, goes on unchanged to
the enclosing scope, and is claimed by no scope of any nesting. -/
theorem JITfilter_claims_exactly_the_sentinel {ParamType R : Type} (CORJIT_INTERNALERROR : Int)
    (storage : JITParam ParamType) (compHnd : Option Nat) (paramRef : ParamType)
    (body : JITParam ParamType → ParamType → JITParam ParamType × BodyEnd)
    (recovery : Int → JITParam ParamType → R) (rec : EXCEPTION_POINTERS)
    (ctx1 : JITParam ParamType)
    (hraise : body (setErrorTrap CORJIT_INTERNALERROR storage compHnd paramRef).1
        (setErrorTrap CORJIT_INTERNALERROR storage compHnd paramRef).2
      = (ctx1, BodyEnd.raised rec)) :
    FATAL_JIT_EXCEPTION = 0x02345678 ∧
    ((__JITfilter rec ctx1).1 = EXCEPTION_EXECUTE_HANDLER ↔
      rec.ExceptionCode = FATAL_JIT_EXCEPTION) ∧
    ((∃ r, errorTrap CORJIT_INTERNALERROR storage compHnd paramRef body recovery
        = ScopeEnd.recovered r) ↔ rec.ExceptionCode = FATAL_JIT_EXCEPTION) ∧
    (errorTrap CORJIT_INTERNALERROR storage compHnd paramRef body recovery
        = ScopeEnd.propagated rec ↔ rec.ExceptionCode ≠ FATAL_JIT_EXCEPTION) ∧
    (rec.ExceptionCode ≠ FATAL_JIT_EXCEPTION →
      (__JITfilter rec ctx1).2 = ctx1 ∧
      ∀ scopes : List (JITParam ParamType), unwind rec scopes = none) := by
  have hfilter : ∀ c : JITParam ParamType,
      ((__JITfilter rec c).1 = EXCEPTION_EXECUTE_HANDLER ↔
        rec.ExceptionCode = FATAL_JIT_EXCEPTION) := by
    intro c
    by_cases hc : rec.ExceptionCode = FATAL_JIT_EXCEPTION <;>
      simp [__JITfilter, hc, EXCEPTION_EXECUTE_HANDLER, EXCEPTION_CONTINUE_SEARCH]
  refine ⟨rfl, hfilter ctx1, ?_, ?_, ?_⟩
  · by_cases hc : rec.ExceptionCode = FATAL_JIT_EXCEPTION <;>
      simp [errorTrap, protectedRun, hraise, hfilter, hc]
  · by_cases hc : rec.ExceptionCode = FATAL_JIT_EXCEPTION <;>
      simp [errorTrap, protectedRun, hraise, hfilter, hc]
  · intro hc
    refine ⟨by simp [__JITfilter, hc], ?_⟩
    intro scopes
    induction scopes with
    | nil => rfl
    | cons c outer ih => simp [unwind, hfilter, hc, ih]

/-- C1, at an access violation raised by the host inside a scope. -/
theorem JITfilter_claims_exactly_the_sentinel_witness :
    (errorTrap 7 emptyContext (some 1) 5 hostFault (fun errc _ => errc)
        = ScopeEnd.propagated ⟨0xC0000005, 0⟩ ↔
      (0xC0000005 : Nat) ≠ FATAL_JIT_EXCEPTION) :=
  (JITfilter_claims_exactly_the_sentinel 7 emptyContext (some 1) 5 hostFault
    (fun errc _ => errc) ⟨0xC0000005, 0⟩
    (setErrorTrap 7 emptyContext (some 1) 5).1 rfl).2.2.2.1

/-- C4: entering a trap scope with `setErrorTrap(compHnd, ParamType, paramDef,
paramRef)` gives, before the protected body runs, a trap context whose `errc`
is `CORJIT_INTERNALERROR`, whose `jitInfo` is `compHnd` and whose `param` is
`paramRef`, whatever the storage held, and the body's local `paramDef` is that
same payload; the protected body is run on exactly this context. -/
theorem setErrorTrap_initialises_context {ParamType R : Type} (CORJIT_INTERNALERROR : Int)
    (storage : JITParam ParamType) (compHnd : Option Nat) (paramRef : ParamType)
    (body : JITParam ParamType → ParamType → JITParam ParamType × BodyEnd)
    (recovery : Int → JITParam ParamType → R) :
    (setErrorTrap CORJIT_INTERNALERROR storage compHnd paramRef).1.errc
      = CORJIT_INTERNALERROR ∧
    (setErrorTrap CORJIT_INTERNALERROR storage compHnd paramRef).1.jitInfo = compHnd ∧
    (setErrorTrap CORJIT_INTERNALERROR storage compHnd paramRef).1.param = paramRef ∧
    (setErrorTrap CORJIT_INTERNALERROR storage compHnd paramRef).2 = paramRef ∧
    errorTrap CORJIT_INTERNALERROR storage compHnd paramRef body recovery
      = protectedRun
          ⟨⟨CORJIT_INTERNALERROR, compHnd, storage.exceptionPointers⟩, paramRef⟩
          paramRef body recovery := by
  refine ⟨rfl, rfl, rfl, rfl, rfl⟩

/-! ## Safe narrowing conversions -/

/-- C2: when `FitsIn<Dst>(val)` holds, `SafeCvtAssert<Dst>(val)` and
`SafeCvtNowayAssert<Dst>(val)` both return normally, call no raiser, and
return `val` itself, a value of `Dst`, in every build, under every policy and
for every pair of integer types. -/
theorem SafeCvt_returns_value_when_it_fits (b : Build) (env : Env) (Dst Src : IntType)
    (val : Int) (h : Hits) (hfit : FitsIn Dst Src val = true) :
    (SafeCvtAssert env Dst Src val h).ret = some val ∧
    (SafeCvtAssert env Dst Src val h).check.outcome = Outcome.normal ∧
    (∀ fn args, Event.call fn args ∉ (SafeCvtAssert env Dst Src val h).check.events) ∧
    (SafeCvtNowayAssert b env Dst Src val h).ret = some val ∧
    (SafeCvtNowayAssert b env Dst Src val h).check.outcome = Outcome.normal ∧
    (∀ fn args, Event.call fn args ∈ (SafeCvtNowayAssert b env Dst Src val h).check.events →
      fn = Callee.RecordNowayAssertGlobal) ∧
    Dst.inRange val = true := by
  have hcast : static_cast Dst val = val := static_cast_of_inRange Dst val hfit
  obtain ⟨D, TL, A, X, L⟩ := b
  obtain ⟨site, cv, nr, nyr, der, ae⟩ := env
  refine ⟨?_, ?_, ?_, ?_, ?_, ?_, hfit⟩ <;> cases ae <;> cases D <;>
    simp [SafeCvtAssert, SafeCvtNowayAssert, exec, evalExpr, callFn, callReturns,
      Callee.noreturn, noway_assert, noway_assert_measured, MEASURE_NOWAY,
      RECORD_NOWAY_ASSERT, Arg.eval, hfit, hcast]

/-- C2, at the 64-bit value 42 converted to a 32-bit signed integer. -/
theorem SafeCvt_returns_value_when_it_fits_witness :
    FitsIn int32 int64 42 = true ∧
    (SafeCvtAssert raising int32 int64 42 []).ret = some 42 ∧
    (SafeCvtNowayAssert releaseBuild raising int32 int64 42 []).ret = some 42 :=
  ⟨by decide,
    (SafeCvt_returns_value_when_it_fits releaseBuild raising int32 int64 42 []
      (by decide)).1,
    (SafeCvt_returns_value_when_it_fits releaseBuild raising int32 int64 42 []
      (by decide)).2.2.2.1⟩

/-- C3 fails as stated: in a production build whose compiler declines to
raise, `SafeCvtNowayAssert<int32>` applied to the 64-bit value 5000000000,
which does not fit, returns the wrapped value 705032704. -/
theorem SafeCvtNowayAssert_returns_wrapped_value :
    FitsIn int32 int64 5000000000 = false ∧
    (SafeCvtNowayAssert releaseBuild suppressing int32 int64 5000000000 []).ret
      = some 705032704 ∧
    (SafeCvtNowayAssert releaseBuild suppressing int32 int64 5000000000 []).check.outcome
      = Outcome.normal := by
  refine ⟨by decide, by decide, by decide⟩

/-- C3, amended: when `FitsIn<Dst>(val)` fails, `SafeCvtAssert<Dst>(val)`
raises and yields no result whenever `assert` is active, and
`SafeCvtNowayAssert<Dst>(val)` raises and yields no result whenever the
compiler's noway policy raises; when that policy suppresses the raise,
`SafeCvtNowayAssert` calls `noWayAssertBodyConditional` once and returns
`static_cast<Dst>(val)`, a value of `Dst` different from `val`. -/
theorem SafeCvt_when_it_does_not_fit (b : Build) (env : Env) (Dst Src : IntType)
    (val : Int) (h : Hits) (hfit : FitsIn Dst Src val = false) :
    (env.assertEnabled = true →
      (SafeCvtAssert env Dst Src val h).ret = none ∧
      (SafeCvtAssert env Dst Src val h).check.outcome = Outcome.assertFailed) ∧
    (env.nowayRaises = true →
      (SafeCvtNowayAssert b env Dst Src val h).ret = none ∧
      (SafeCvtNowayAssert b env Dst Src val h).check.outcome
        = Outcome.raised Callee.noWayAssertBodyConditional) ∧
    (env.nowayRaises = false →
      (SafeCvtNowayAssert b env Dst Src val h).ret = some (static_cast Dst val) ∧
      (SafeCvtNowayAssert b env Dst Src val h).check.outcome = Outcome.normal ∧
      (argsPassedTo Callee.noWayAssertBodyConditional
        (SafeCvtNowayAssert b env Dst Src val h).check.events).length = 1 ∧
      Dst.inRange (static_cast Dst val) = true ∧
      static_cast Dst val ≠ val) := by
  have hne : static_cast Dst val ≠ val := by
    intro heq
    have hr := static_cast_inRange Dst val
    rw [heq] at hr
    simp [FitsIn, hr] at hfit
  obtain ⟨D, TL, A, X, L⟩ := b
  obtain ⟨site, cv, nr, nyr, der, ae⟩ := env
  refine ⟨?_, ?_, ?_⟩
  · intro hae
    simp only at hae
    subst hae
    simp [SafeCvtAssert, exec, evalExpr, hfit]
  · intro hnr
    simp only at hnr
    subst hnr
    cases D <;> cases TL <;>
      simp [SafeCvtNowayAssert, exec, evalExpr, callFn, callReturns,
        Callee.noreturn, noway_assert, noway_assert_measured, MEASURE_NOWAY,
        RECORD_NOWAY_ASSERT, NOWAY_ASSERT_BODY_ARGUMENTS, Arg.eval, hfit]
  · intro hnr
    simp only at hnr
    subst hnr
    refine ⟨?_, ?_, ?_, static_cast_inRange Dst val, hne⟩ <;> cases D <;> cases TL <;>
      simp [SafeCvtNowayAssert, exec, evalExpr, callFn, callReturns,
        Callee.noreturn, noway_assert, noway_assert_measured, MEASURE_NOWAY,
        RECORD_NOWAY_ASSERT, NOWAY_ASSERT_BODY_ARGUMENTS, Arg.eval, hfit, argsPassedTo]

/-- C3 amended, at the 64-bit value 5000000000 converted to a 32-bit signed
integer under a policy that raises. -/
theorem SafeCvt_when_it_does_not_fit_witness :
    FitsIn int32 int64 5000000000 = false ∧
    (SafeCvtAssert raising int32 int64 5000000000 []).ret = none ∧
    (SafeCvtNowayAssert debugBuild raising int32 int64 5000000000 []).ret = none :=
  ⟨by decide,
    ((SafeCvt_when_it_does_not_fit debugBuild raising int32 int64 5000000000 []
      (by decide)).1 rfl).1,
    ((SafeCvt_when_it_does_not_fit debugBuild raising int32 int64 5000000000 []
      (by decide)).2.1 rfl).1⟩

/-! ## The guard `noway_assert` -/

/-- C5: in every build, one run of `noway_assert(cond)` evaluates `cond`
exactly once and calls `noWayAssertBodyConditional` if and only if `cond` is
false; when `cond` is true the run ends normally, so execution goes on after
the guard, and no function but the hit recorder has been called. -/
theorem noway_assert_evaluates_once_and_raises_iff_false (b : Build) (env : Env)
    (cond : String) (h : Hits) :
    (exec env (noway_assert b cond) h).events.filter Event.isEvalCond
      = [Event.evalCond cond] ∧
    ((∃ args, Event.call Callee.noWayAssertBodyConditional args ∈
        (exec env (noway_assert b cond) h).events) ↔ env.condValue = false) ∧
    (env.condValue = true →
      (exec env (noway_assert b cond) h).outcome = Outcome.normal ∧
      ∀ fn args, Event.call fn args ∈ (exec env (noway_assert b cond) h).events →
        fn = Callee.RecordNowayAssertGlobal) := by
  obtain ⟨D, TL, A, X, L⟩ := b
  obtain ⟨site, cv, nr, nyr, der, ae⟩ := env
  cases D <;> cases TL <;> cases cv <;> cases nr <;>
    simp [exec, evalExpr, callFn, callReturns, Callee.noreturn, noway_assert,
      noway_assert_measured, MEASURE_NOWAY, RECORD_NOWAY_ASSERT, NOWAY_ASSERT_BODY_ARGUMENTS,
      Event.isEvalCond, Arg.eval]

/-- C5, at a predicate that holds, in a debug build. -/
theorem noway_assert_evaluates_once_and_raises_iff_false_witness :
    passing.condValue = true ∧
    (exec passing (noway_assert debugBuild "a == b") []).outcome = Outcome.normal :=
  ⟨rfl,
    ((noway_assert_evaluates_once_and_raises_iff_false debugBuild passing "a == b" []).2.2
      rfl).1⟩

/-- C8: in a `DEBUG` build a run of `noway_assert(cond)` starts with one call
`RecordNowayAssertGlobal(__FILE__, __LINE__, #cond)`, made before `cond` is
evaluated and whatever its value, makes no other call to the recorder, and
leaves the counter of that key incremented; in a non-`DEBUG` build, where
`MEASURE_NOWAY` is 0, the recorder is not called and the counters are
unchanged. -/
theorem noway_assert_records_hit_in_debug_only (b : Build) (env : Env) (cond : String)
    (h : Hits) :
    (b.DEBUG = true →
      (∃ rest, (exec env (noway_assert b cond) h).events
          = Event.call Callee.RecordNowayAssertGlobal
              [Val.str env.site.file, Val.num env.site.line, Val.str cond]
            :: Event.evalCond cond :: rest ∧
        argsPassedTo Callee.RecordNowayAssertGlobal rest = []) ∧
      argsPassedTo Callee.RecordNowayAssertGlobal (exec env (noway_assert b cond) h).events
        = [[Val.str env.site.file, Val.num env.site.line, Val.str cond]] ∧
      (exec env (noway_assert b cond) h).hits
        = RecordNowayAssertGlobal
            [Val.str env.site.file, Val.num env.site.line, Val.str cond] h) ∧
    (b.DEBUG = false →
      MEASURE_NOWAY b = false ∧
      argsPassedTo Callee.RecordNowayAssertGlobal (exec env (noway_assert b cond) h).events
        = [] ∧
      (exec env (noway_assert b cond) h).hits = h) := by
  obtain ⟨D, TL, A, X, L⟩ := b
  obtain ⟨site, cv, nr, nyr, der, ae⟩ := env
  cases D <;> cases TL <;> cases cv <;> cases nr <;>
    simp [exec, evalExpr, callFn, callReturns, Callee.noreturn, noway_assert,
      noway_assert_measured, MEASURE_NOWAY, RECORD_NOWAY_ASSERT, NOWAY_ASSERT_BODY_ARGUMENTS,
      argsPassedTo, Arg.eval]

/-- C8, at a predicate that holds at `x.cpp:7`, in a debug build. -/
theorem noway_assert_records_hit_in_debug_only_witness :
    debugBuild.DEBUG = true ∧
    (exec passing (noway_assert debugBuild "a == b") []).hits
      = RecordNowayAssertGlobal [Val.str "x.cpp", Val.num 7, Val.str "a == b"] [] :=
  ⟨rfl,
    ((noway_assert_records_hit_in_debug_only debugBuild passing "a == b" []).1 rfl).2.2⟩

/-- C10: for every build, predicate value and policy, the guard built with
`MEASURE_NOWAY` = 1 and the guard built with `MEASURE_NOWAY` = 0 evaluate
`cond` the same number of times, call the raiser with the same arguments and
end the same way; the first run is the second with the recorder call in front,
and only the hit counters differ. -/
theorem hit_counting_is_observational (b : Build) (env : Env) (cond : String) (h : Hits) :
    (exec env (noway_assert_measured b true cond) h).events
      = Event.call Callee.RecordNowayAssertGlobal
          [Val.str env.site.file, Val.num env.site.line, Val.str cond]
        :: (exec env (noway_assert_measured b false cond) h).events ∧
    (exec env (noway_assert_measured b true cond) h).events.filter Event.isEvalCond
      = (exec env (noway_assert_measured b false cond) h).events.filter Event.isEvalCond ∧
    argsPassedTo Callee.noWayAssertBodyConditional
        (exec env (noway_assert_measured b true cond) h).events
      = argsPassedTo Callee.noWayAssertBodyConditional
        (exec env (noway_assert_measured b false cond) h).events ∧
    (exec env (noway_assert_measured b true cond) h).outcome
      = (exec env (noway_assert_measured b false cond) h).outcome ∧
    (exec env (noway_assert_measured b false cond) h).hits = h ∧
    (exec env (noway_assert_measured b true cond) h).hits
      = RecordNowayAssertGlobal
          [Val.str env.site.file, Val.num env.site.line, Val.str cond] h := by
  obtain ⟨D, TL, A, X, L⟩ := b
  obtain ⟨site, cv, nr, nyr, der, ae⟩ := env
  cases D <;> cases TL <;> cases cv <;> cases nr <;>
    simp [exec, evalExpr, callFn, callReturns, Callee.noreturn,
      noway_assert_measured, RECORD_NOWAY_ASSERT, NOWAY_ASSERT_BODY_ARGUMENTS,
      argsPassedTo, Event.isEvalCond, Arg.eval]

/-! ## The raisers -/

/-- C6 fails as stated: `noWayAssertBodyConditional` is not declared
`DECLSPEC_NORETURN`, and with a compiler that declines to raise, `NOWAY_MSG`,
a failing `noway_assert` and `NYI` all come back to the statement after
them. -/
theorem conditional_raisers_can_return :
    Callee.noreturn Callee.noWayAssertBodyConditional = false ∧
    (exec suppressing (Stmt.expr (NOWAY_MSG releaseBuild "m")) []).outcome = Outcome.normal ∧
    (exec suppressing (noway_assert releaseBuild "a == b") []).outcome = Outcome.normal ∧
    (exec suppressing (NYI releaseBuild "m") []).outcome = Outcome.normal := by
  refine ⟨rfl, ?_, ?_, ?_⟩ <;>
    simp [exec, evalExpr, callFn, callReturns, Callee.noreturn, noway_assert,
      noway_assert_measured, MEASURE_NOWAY, RECORD_NOWAY_ASSERT, NOWAY_ASSERT_BODY_ARGUMENTS,
      NOWAY_MSG, NYI, NYIRAW, nyiAvailable, releaseBuild, suppressing]

/-- C6, amended: in every build `BADCODE`, `BADCODE3`, `NO_WAY`,
`IMPL_LIMITATION`, `unreached`, `NOMEM` and `fatal` never come back to the
statement after them, and where `debugError` returns the raise is made by a
function declared `DECLSPEC_NORETURN`; `NOWAY_MSG`, the failure branch of
`noway_assert` and, where `NYI` is a raiser, `NYI` call a function that is
not declared so, and come back exactly when it declines to raise. -/
theorem unconditional_raisers_never_return (b : Build) (env : Env) (h : Hits)
    (msg msg2 cond : String) (arg errCode : Int) :
    (exec env (Stmt.expr (BADCODE b msg)) h).outcome ≠ Outcome.normal ∧
    (exec env (Stmt.expr (BADCODE3 b msg msg2 arg)) h).outcome ≠ Outcome.normal ∧
    (exec env (Stmt.expr (NO_WAY b msg)) h).outcome ≠ Outcome.normal ∧
    (exec env (Stmt.expr (IMPL_LIMITATION b msg)) h).outcome ≠ Outcome.normal ∧
    (exec env (Stmt.expr (unreached b)) h).outcome ≠ Outcome.normal ∧
    (exec env (Stmt.expr NOMEM) h).outcome = Outcome.raised Callee.NOMEM ∧
    (exec env (Stmt.expr (fatal errCode)) h).outcome = Outcome.raised Callee.fatal ∧
    (env.debugErrorReturns = true →
      (exec env (Stmt.expr (BADCODE b msg)) h).outcome = Outcome.raised Callee.badCode ∧
      (∃ fn, fn.noreturn = true ∧
        (exec env (Stmt.expr (BADCODE3 b msg msg2 arg)) h).outcome = Outcome.raised fn) ∧
      (exec env (Stmt.expr (NO_WAY b msg)) h).outcome = Outcome.raised Callee.noWay ∧
      (exec env (Stmt.expr (IMPL_LIMITATION b msg)) h).outcome
        = Outcome.raised Callee.noWay ∧
      (exec env (Stmt.expr (unreached b)) h).outcome
        = Outcome.raised Callee.noWayAssertBody) ∧
    ((exec env (Stmt.expr (NOWAY_MSG b msg)) h).outcome = Outcome.normal ↔
      env.nowayRaises = false) ∧
    (env.condValue = false →
      ((exec env (noway_assert b cond) h).outcome = Outcome.normal ↔
        env.nowayRaises = false)) ∧
    (nyiAvailable b = true →
      ((exec env (NYI b msg) h).outcome = Outcome.normal ↔
        (if b.ALT_JIT then env.nyiRaises = false else env.nowayRaises = false))) := by
  obtain ⟨D, TL, A, X, L⟩ := b
  obtain ⟨site, cv, nr, nyr, der, ae⟩ := env
  refine ⟨?_, ?_, ?_, ?_, ?_, ?_, ?_, ?_, ?_, ?_, ?_⟩
  · cases D <;> cases der <;>
      simp [exec, evalExpr, callFn, callReturns, Callee.noreturn, BADCODE]
  · cases D <;>
      simp [exec, evalExpr, callFn, callReturns, Callee.noreturn, BADCODE3]
  · cases D <;> cases der <;>
      simp [exec, evalExpr, callFn, callReturns, Callee.noreturn, NO_WAY]
  · cases D <;> cases der <;>
      simp [exec, evalExpr, callFn, callReturns, Callee.noreturn, NO_WAY, IMPL_LIMITATION]
  · cases D <;>
      simp [exec, evalExpr, callFn, callReturns, Callee.noreturn, unreached]
  · simp [exec, evalExpr, callFn, callReturns, Callee.noreturn, NOMEM]
  · simp [exec, evalExpr, callFn, callReturns, Callee.noreturn, fatal]
  · intro hder
    simp only at hder
    subst hder
    cases D <;>
      simp [exec, evalExpr, callFn, callReturns, Callee.noreturn, BADCODE, BADCODE3, NO_WAY,
        IMPL_LIMITATION, unreached]
  · cases D <;> cases nr <;>
      simp [exec, evalExpr, callFn, callReturns, Callee.noreturn, NOWAY_MSG]
  · intro hcv
    simp only at hcv
    subst hcv
    cases D <;> cases nr <;>
      simp [exec, evalExpr, callFn, callReturns, Callee.noreturn, noway_assert,
        noway_assert_measured, MEASURE_NOWAY, RECORD_NOWAY_ASSERT]
  · intro hav
    cases A <;> cases D <;> cases nr <;> cases nyr <;>
      simp [exec, evalExpr, callFn, callReturns, Callee.noreturn, NYI, NYIRAW, NOWAY_MSG, hav]

/-- C6 amended, at `NO_WAY` in a debug build whose `debugError` returns. -/
theorem unconditional_raisers_never_return_witness :
    raising.debugErrorReturns = true ∧
    (exec raising (Stmt.expr (NO_WAY debugBuild "m")) []).outcome
      = Outcome.raised Callee.noWay :=
  ⟨rfl,
    ((unconditional_raisers_never_return debugBuild raising [] "m" "m2" "c" 0 0).2.2.2.2.2.2.2.1
      rfl).2.2.1⟩

/-- C7 fails as stated: in a production build whose compiler declines to
raise, `NYI` calls `noWayAssertBodyConditional` and comes back, while
`IMPL_LIMITATION` and `NO_WAY` call `noWay` and do not. -/
theorem NYI_differs_from_IMPL_LIMITATION :
    exec suppressing (NYI releaseBuild "m") []
      = ⟨[Event.call Callee.noWayAssertBodyConditional []], [], Outcome.normal⟩ ∧
    exec suppressing (Stmt.expr (IMPL_LIMITATION releaseBuild "m")) []
      = ⟨[Event.call Callee.noWay []], [], Outcome.raised Callee.noWay⟩ ∧
    exec suppressing (Stmt.expr (NO_WAY releaseBuild "m")) []
      = ⟨[Event.call Callee.noWay []], [], Outcome.raised Callee.noWay⟩ := by
  refine ⟨?_, ?_, ?_⟩ <;>
    simp [exec, evalExpr, callFn, callReturns, Callee.noreturn, NOWAY_ASSERT_BODY_ARGUMENTS,
      NOWAY_MSG, NYI, NYIRAW, NO_WAY, IMPL_LIMITATION, nyiAvailable, releaseBuild, suppressing]

/-- C7, amended: in every build in which `NYI` is a raiser and `ALT_JIT` is
not defined, `NYI(msg)` performs the raise of `NOWAY_MSG("NYI: " msg)`: it
calls `noWayAssertBodyConditional`, never `noWay`, and comes back exactly when
the compiler declines to raise; `IMPL_LIMITATION(msg)` performs the raise of
`NO_WAY(msg)`, which never calls `noWayAssertBodyConditional` and never comes
back. -/
theorem NYI_raises_as_NOWAY_MSG (b : Build) (env : Env) (msg : String) (h : Hits)
    (hav : nyiAvailable b = true) (halt : b.ALT_JIT = false) :
    exec env (NYI b msg) h = exec env (Stmt.expr (NOWAY_MSG b ("NYI: " ++ msg))) h ∧
    (argsPassedTo Callee.noWayAssertBodyConditional (exec env (NYI b msg) h).events).length
      = 1 ∧
    argsPassedTo Callee.noWay (exec env (NYI b msg) h).events = [] ∧
    ((exec env (NYI b msg) h).outcome = Outcome.normal ↔ env.nowayRaises = false) ∧
    ((exec env (NYI b msg) h).outcome = Outcome.raised Callee.noWayAssertBodyConditional ↔
      env.nowayRaises = true) ∧
    exec env (Stmt.expr (IMPL_LIMITATION b msg)) h = exec env (Stmt.expr (NO_WAY b msg)) h ∧
    argsPassedTo Callee.noWayAssertBodyConditional
      (exec env (Stmt.expr (IMPL_LIMITATION b msg)) h).events = [] ∧
    (exec env (Stmt.expr (IMPL_LIMITATION b msg)) h).outcome ≠ Outcome.normal := by
  obtain ⟨D, TL, A, X, L⟩ := b
  obtain ⟨site, cv, nr, nyr, der, ae⟩ := env
  simp only at halt
  subst halt
  refine ⟨?_, ?_, ?_, ?_, ?_, rfl, ?_, ?_⟩ <;> cases D <;> cases TL <;> cases nr <;>
      cases der <;>
    simp [exec, evalExpr, callFn, callReturns, Callee.noreturn, NOWAY_ASSERT_BODY_ARGUMENTS,
      NOWAY_MSG, NYI, NYIRAW, NO_WAY, IMPL_LIMITATION, argsPassedTo, hav]

/-- C7 amended, at a production build whose compiler declines to raise. -/
theorem NYI_raises_as_NOWAY_MSG_witness :
    nyiAvailable releaseBuild = true ∧ releaseBuild.ALT_JIT = false ∧
    exec suppressing (NYI releaseBuild "m") []
      = exec suppressing (Stmt.expr (NOWAY_MSG releaseBuild ("NYI: " ++ "m"))) [] :=
  ⟨rfl, rfl, (NYI_raises_as_NOWAY_MSG releaseBuild suppressing "m" [] rfl rfl).1⟩

/-- C9 fails as stated: in a non-`DEBUG` build with `FEATURE_TRACELOGGING`, a
failing `noway_assert` at `x.cpp:7` and `NOWAY_MSG` both hand `__FILE__` and
`__LINE__` to `noWayAssertBodyConditional`. -/
theorem tracelogging_passes_file_and_line :
    tracingBuild.DEBUG = false ∧
    argsPassedTo Callee.noWayAssertBodyConditional
        (exec suppressing (noway_assert tracingBuild "a == b") []).events
      = [[Val.str "x.cpp", Val.num 7]] ∧
    argsPassedTo Callee.noWayAssertBodyConditional
        (exec suppressing (Stmt.expr (NOWAY_MSG tracingBuild "m")) []).events
      = [[Val.str "x.cpp", Val.num 7]] := by
  refine ⟨rfl, ?_, ?_⟩ <;>
    simp [exec, evalExpr, callFn, callReturns, Callee.noreturn, noway_assert,
      noway_assert_measured, MEASURE_NOWAY, RECORD_NOWAY_ASSERT, NOWAY_ASSERT_BODY_ARGUMENTS,
      NOWAY_MSG, argsPassedTo, Arg.eval, tracingBuild, suppressing]

/-- C9, amended: in a non-`DEBUG` build `NO_WAY`, `BADCODE`, `BADCODE3` and
`unreached` call their raiser with no argument, and `NOWAY_MSG` and a failing
`noway_assert` pass no message or condition text to
`noWayAssertBodyConditional`: nothing without `FEATURE_TRACELOGGING`, and
`__FILE__` and `__LINE__` with it. In a `DEBUG` build `NO_WAY` and `BADCODE`
first report the message, file and line through `debugError`, and `BADCODE3`,
`unreached`, `NOWAY_MSG` and a failing `noway_assert` pass the message or
condition text, file and line to the raiser. -/
theorem context_collected_by_raisers (b : Build) (env : Env) (h : Hits)
    (msg msg2 cond : String) (arg : Int) :
    (b.DEBUG = false →
      (exec env (Stmt.expr (NO_WAY b msg)) h).events = [Event.call Callee.noWay []] ∧
      (exec env (Stmt.expr (BADCODE b msg)) h).events = [Event.call Callee.badCode []] ∧
      (exec env (Stmt.expr (BADCODE3 b msg msg2 arg)) h).events
        = [Event.call Callee.badCode []] ∧
      (exec env (Stmt.expr (unreached b)) h).events
        = [Event.call Callee.noWayAssertBody []] ∧
      (exec env (Stmt.expr (NOWAY_MSG b msg)) h).events
        = [Event.call Callee.noWayAssertBodyConditional
            (if b.FEATURE_TRACELOGGING then
              [Val.str env.site.file, Val.num env.site.line] else [])] ∧
      (env.condValue = false →
        (exec env (noway_assert b cond) h).events
          = [Event.evalCond cond,
             Event.call Callee.noWayAssertBodyConditional
              (if b.FEATURE_TRACELOGGING then
                [Val.str env.site.file, Val.num env.site.line] else [])])) ∧
    (b.DEBUG = true →
      (exec env (Stmt.expr (NO_WAY b msg)) h).events
        = Event.call Callee.debugError
            [Val.str msg, Val.str env.site.file, Val.num env.site.line]
          :: (if env.debugErrorReturns then [Event.call Callee.noWay []] else []) ∧
      (exec env (Stmt.expr (BADCODE b msg)) h).events
        = Event.call Callee.debugError
            [Val.str msg, Val.str env.site.file, Val.num env.site.line]
          :: (if env.debugErrorReturns then [Event.call Callee.badCode []] else []) ∧
      (exec env (Stmt.expr (BADCODE3 b msg msg2 arg)) h).events
        = [Event.call Callee.badCode3
            [Val.str msg, Val.str msg2, Val.num arg, Val.str env.site.file,
             Val.num env.site.line]] ∧
      (exec env (Stmt.expr (unreached b)) h).events
        = [Event.call Callee.noWayAssertBody
            [Val.str "unreached", Val.str env.site.file, Val.num env.site.line]] ∧
      (exec env (Stmt.expr (NOWAY_MSG b msg)) h).events
        = [Event.call Callee.noWayAssertBodyConditional
            [Val.str msg, Val.str env.site.file, Val.num env.site.line]] ∧
      (env.condValue = false →
        argsPassedTo Callee.noWayAssertBodyConditional
            (exec env (noway_assert b cond) h).events
          = [[Val.str cond, Val.str env.site.file, Val.num env.site.line]])) := by
  obtain ⟨D, TL, A, X, L⟩ := b
  obtain ⟨site, cv, nr, nyr, der, ae⟩ := env
  constructor
  · intro hD
    simp only at hD
    subst hD
    refine ⟨?_, ?_, ?_, ?_, ?_, ?_⟩ <;> cases TL <;> cases nr <;> cases cv <;>
      simp [exec, evalExpr, callFn, callReturns, Callee.noreturn, noway_assert,
        noway_assert_measured, MEASURE_NOWAY, RECORD_NOWAY_ASSERT,
        NOWAY_ASSERT_BODY_ARGUMENTS, NOWAY_MSG, NO_WAY, BADCODE, BADCODE3, unreached,
        Arg.eval]
  · intro hD
    simp only at hD
    subst hD
    refine ⟨?_, ?_, ?_, ?_, ?_, ?_⟩ <;> cases der <;> cases nr <;> cases cv <;>
      simp [exec, evalExpr, callFn, callReturns, Callee.noreturn, noway_assert,
        noway_assert_measured, MEASURE_NOWAY, RECORD_NOWAY_ASSERT,
        NOWAY_ASSERT_BODY_ARGUMENTS, NOWAY_MSG, NO_WAY, BADCODE, BADCODE3, unreached,
        argsPassedTo, Arg.eval]

/-- C9 amended, at `NO_WAY` in a production build. -/
theorem context_collected_by_raisers_witness :
    releaseBuild.DEBUG = false ∧
    (exec raising (Stmt.expr (NO_WAY releaseBuild "m")) []).events
      = [Event.call Callee.noWay []] :=
  ⟨rfl, ((context_collected_by_raisers releaseBuild raising [] "m" "m2" "c" 0).1 rfl).1⟩

end JitError
